import Mathlib

/-
Verification development for the Merchant_Onboard service (src/app.py).

The development shallowly embeds the parts of src/app.py that the
specification talks about:

* the JSON value tree produced by Python's json.loads, as the inductive
  type Json (numeric literals are kept as their source lexeme, since no
  property proved here compares distinct numeric spellings of one value);
* json.loads itself, as the fuel-based recursive-descent function
  pyJsonLoads, following the grammar and the error taxonomy of the
  CPython json module (positions inside error messages are omitted;
  a lone surrogate escape decodes through Char.ofNat);
* the whitespace trimming and fence stripping performed inside
  analyze_image, as pyStrip and stripFences;
* analyze_image itself, with the remote Gemini call and image decoding
  abstracted as an InferOutcome environment value (either the text the
  model returned, or the message of the exception the call raised);
* the POST bodies of the /analyze-shop and /submit-shop handlers, with
  the audit-file write and the database modelled by SubmitEnv and
  DBState (the OPTIONS preflight short-circuit of each handler is not
  modelled; the handlers below are the POST paths).
-/

namespace MerchantOnboard

/-- JSON value tree as returned by Python's json.loads. Objects keep
insertion order of first key occurrence; a duplicate key overwrites the
stored value in place, mirroring Python dict construction. Numeric
literals are kept verbatim as lexemes (including NaN and Infinity,
which CPython's json accepts by default). -/
inductive Json where
  | null
  | bool (b : Bool)
  | num (lexeme : String)
  | str (s : String)
  | arr (elems : List Json)
  | obj (fields : List (String × Json))

/-- Lookup of a key in an object field list (first occurrence wins;
the parser never stores a key twice). -/
def objLookup : List (String × Json) → String → Option Json
  | [], _ => none
  | (k0, v0) :: t, k => if k0 = k then some v0 else objLookup t k

/-- Field access on a Json value: the model of Python dict indexing on
a parsed object, returning none on a non-object or a missing key. -/
def Json.lookup : Json → String → Option Json
  | .obj fields, k => objLookup fields k
  | _, _ => none

/-- Insert a key/value pair the way Python dict assignment does: if the
key is present, replace its value in place, else append. -/
def insertField : List (String × Json) → String → Json → List (String × Json)
  | [], k, v => [(k, v)]
  | (k0, v0) :: t, k, v =>
    if k0 = k then (k0, v) :: t else (k0, v0) :: insertField t k v

/-- Error taxonomy of the CPython json decoder, one constructor per
distinct message shape (source positions are not modelled). -/
inductive JErr where
  | expectingValue
  | extraData
  | invalidControlChar
  | invalidEscape
  | unterminatedString
  | expectingPropertyName
  | expectingColonDelimiter
  | expectingCommaDelimiter
  | recursionDepth
deriving DecidableEq

/-- Message text of each decoder error, as str(e) would render it
(without the line/column suffix CPython appends). -/
def JErr.msg : JErr → String
  | .expectingValue => "Expecting value"
  | .extraData => "Extra data"
  | .invalidControlChar => "Invalid control character"
  | .invalidEscape => "Invalid escape"
  | .unterminatedString => "Unterminated string"
  | .expectingPropertyName => "Expecting property name enclosed in double quotes"
  | .expectingColonDelimiter => "Expecting colon delimiter"
  | .expectingCommaDelimiter => "Expecting comma delimiter"
  | .recursionDepth => "maximum recursion depth exceeded"

/-- Whitespace characters of the json grammar (the WHITESPACE regex of
CPython's json module is exactly space, tab, newline, carriage return). -/
def jsonWs (c : Char) : Bool :=
  c = ' ' || c = '\t' || c = '\n' || c = '\r'

/-- Skip json whitespace. -/
def skipWs (cs : List Char) : List Char :=
  cs.dropWhile jsonWs

/-- Value of one hex digit, if the character is one. -/
def hexDigitVal (c : Char) : Option Nat :=
  if '0' ≤ c ∧ c ≤ '9' then some (c.toNat - '0'.toNat)
  else if 'a' ≤ c ∧ c ≤ 'f' then some (c.toNat - 'a'.toNat + 10)
  else if 'A' ≤ c ∧ c ≤ 'F' then some (c.toNat - 'A'.toNat + 10)
  else none

/-- Read exactly four hex digits, returning their value and the rest. -/
def hex4 : List Char → Option (Nat × List Char)
  | a :: b :: c :: d :: rest => do
    let x ← hexDigitVal a
    let y ← hexDigitVal b
    let z ← hexDigitVal c
    let w ← hexDigitVal d
    pure ((((x * 16 + y) * 16 + z) * 16 + w), rest)
  | _ => none

/-- Simple backslash escapes of the json string grammar. -/
def escChar (c : Char) : Option Char :=
  if c = '"' then some '"'
  else if c = '\\' then some '\\'
  else if c = '/' then some '/'
  else if c = 'b' then some (Char.ofNat 8)
  else if c = 'f' then some (Char.ofNat 12)
  else if c = 'n' then some '\n'
  else if c = 'r' then some '\r'
  else if c = 't' then some '\t'
  else none

/-- Prepend a character to the string being accumulated by the string
scanner. -/
def consHead (c : Char) :
    Except JErr (List Char × List Char) → Except JErr (List Char × List Char)
  | .error e => .error e
  | .ok (s, rest) => .ok (c :: s, rest)

/-- Scanner for the body of a json string, entered just after the
opening quote: handles plain characters, the simple escapes, \uXXXX
escapes and surrogate pairs, and rejects raw control characters, as
CPython's py_scanstring does in strict mode. The fuel argument is
always called with more fuel than characters, so the fuel never runs
out on any input. -/
def scanStringBody : Nat → List Char → Except JErr (List Char × List Char)
  | 0, _ => .error .unterminatedString
  | fuel + 1, cs =>
    match cs with
    | [] => .error .unterminatedString
    | c :: rest =>
      if c = '"' then .ok ([], rest)
      else if c = '\\' then
        match rest with
        | [] => .error .unterminatedString
        | e :: rest2 =>
          if e = 'u' then
            match hex4 rest2 with
            | none => .error .invalidEscape
            | some (n, rest3) =>
              if 0xD800 ≤ n ∧ n ≤ 0xDBFF then
                match rest3 with
                | '\\' :: 'u' :: rest4 =>
                  match hex4 rest4 with
                  | some (n2, rest5) =>
                    if 0xDC00 ≤ n2 ∧ n2 ≤ 0xDFFF then
                      consHead
                        (Char.ofNat
                          (0x10000 + (n - 0xD800) * 0x400 + (n2 - 0xDC00)))
                        (scanStringBody fuel rest5)
                    else consHead (Char.ofNat n) (scanStringBody fuel rest3)
                  | none => consHead (Char.ofNat n) (scanStringBody fuel rest3)
                | _ => consHead (Char.ofNat n) (scanStringBody fuel rest3)
              else consHead (Char.ofNat n) (scanStringBody fuel rest3)
          else
            match escChar e with
            | some d => consHead d (scanStringBody fuel rest2)
            | none => .error .invalidEscape
      else if c.toNat < 0x20 then .error .invalidControlChar
      else consHead c (scanStringBody fuel rest)

/-- Take the longest run of decimal digits. -/
def takeDigits (cs : List Char) : List Char × List Char :=
  (cs.takeWhile Char.isDigit, cs.dropWhile Char.isDigit)

/-- Optional fraction part of the number regex: a dot followed by at
least one digit; anything else matches the empty fraction. -/
def scanFrac : List Char → List Char × List Char
  | '.' :: u =>
    match takeDigits u with
    | ([], _) => ([], '.' :: u)
    | (ds, r) => ('.' :: ds, r)
  | cs => ([], cs)

/-- Optional exponent part of the number regex: e or E, an optional
sign, and at least one digit. -/
def scanExp : List Char → List Char × List Char
  | e :: u =>
    if e = 'e' ∨ e = 'E' then
      match u with
      | c :: v =>
        if c = '+' ∨ c = '-' then
          match takeDigits v with
          | ([], _) => ([], e :: u)
          | (ds, r) => (e :: c :: ds, r)
        else
          match takeDigits u with
          | ([], _) => ([], e :: u)
          | (ds, r) => (e :: ds, r)
      | [] => ([], e :: u)
    else ([], e :: u)
  | [] => ([], [])

/-- Number scanner following CPython's NUMBER_RE: an optional minus,
an integer part that is 0 or starts with a nonzero digit, an optional
fraction and an optional exponent. Returns the matched lexeme and the
rest, or none when the regex does not match at this position. -/
def scanNumber (cs : List Char) : Option (List Char × List Char) :=
  let signed : List Char × List Char :=
    match cs with
    | '-' :: t => (['-'], t)
    | _ => ([], cs)
  match signed.2 with
  | '0' :: t =>
    let f := scanFrac t
    let e := scanExp f.2
    some (signed.1 ++ '0' :: f.1 ++ e.1, e.2)
  | c :: t =>
    if c.isDigit then
      let ds := takeDigits t
      let f := scanFrac ds.2
      let e := scanExp f.2
      some (signed.1 ++ c :: ds.1 ++ f.1 ++ e.1, e.2)
    else none
  | [] => none

/-- Literal spellings recognised by the scanner. -/
def nullLit : List Char := "null".data

/-- Literal spelling of true. -/
def trueLit : List Char := "true".data

/-- Literal spelling of false. -/
def falseLit : List Char := "false".data

/-- Literal spelling of NaN. -/
def nanLit : List Char := "NaN".data

/-- Literal spelling of Infinity. -/
def infLit : List Char := "Infinity".data

/-- Literal spelling of -Infinity. -/
def negInfLit : List Char := "-Infinity".data

/-- Mode of the recursive-descent scanner: a value position, an object
body just after its opening brace, an object member loop just after
the opening quote of the next key, an array body just after its
opening bracket, or an array element loop at a value position. -/
inductive PMode where
  | value
  | objStart
  | members (acc : List (String × Json))
  | arrStart
  | elems (acc : List Json)

/-- One scanner of the json grammar, mirroring CPython's _scan_once
dispatch order in value mode: string, object, array, the
null/true/false literals, the number regex, then NaN, Infinity and
-Infinity. Structured as a single function over a mode so that it is
structurally recursive on the fuel, which models CPython's recursion
limit on deeply nested documents and is always supplied generously
enough never to run out (fuel only decreases along a call chain, and
at least one character is consumed every three steps). -/
def parseStep : Nat → PMode → List Char → Except JErr (Json × List Char)
  | 0, _, _ => .error .recursionDepth
  | fuel + 1, .value, cs =>
    match cs with
    | [] => .error .expectingValue
    | '"' :: rest =>
      match scanStringBody (rest.length + 1) rest with
      | .error e => .error e
      | .ok (s, rest2) => .ok (.str (String.mk s), rest2)
    | '{' :: rest => parseStep fuel .objStart (skipWs rest)
    | '[' :: rest => parseStep fuel .arrStart (skipWs rest)
    | _ =>
      if nullLit.isPrefixOf cs then .ok (.null, cs.drop 4)
      else if trueLit.isPrefixOf cs then .ok (.bool true, cs.drop 4)
      else if falseLit.isPrefixOf cs then .ok (.bool false, cs.drop 5)
      else
        match scanNumber cs with
        | some (lex, r) => .ok (.num (String.mk lex), r)
        | none =>
          if nanLit.isPrefixOf cs then .ok (.num "NaN", cs.drop 3)
          else if infLit.isPrefixOf cs then .ok (.num "Infinity", cs.drop 8)
          else if negInfLit.isPrefixOf cs then
            .ok (.num "-Infinity", cs.drop 9)
          else .error .expectingValue
  | fuel + 1, .objStart, cs =>
    match cs with
    | '}' :: rest => .ok (.obj [], rest)
    | '"' :: rest => parseStep fuel (.members []) rest
    | _ => .error .expectingPropertyName
  | fuel + 1, .members acc, cs =>
    match scanStringBody (cs.length + 1) cs with
    | .error e => .error e
    | .ok (key, r1) =>
      match skipWs r1 with
      | ':' :: r3 =>
        match parseStep fuel .value (skipWs r3) with
        | .error e => .error e
        | .ok (v, r4) =>
          let acc2 := insertField acc (String.mk key) v
          match skipWs r4 with
          | ',' :: r5 =>
            match skipWs r5 with
            | '"' :: r6 => parseStep fuel (.members acc2) r6
            | _ => .error .expectingPropertyName
          | '}' :: r5 => .ok (.obj acc2, r5)
          | _ => .error .expectingCommaDelimiter
      | _ => .error .expectingColonDelimiter
  | fuel + 1, .arrStart, cs =>
    match cs with
    | ']' :: rest => .ok (.arr [], rest)
    | _ => parseStep fuel (.elems []) cs
  | fuel + 1, .elems acc, cs =>
    match parseStep fuel .value cs with
    | .error e => .error e
    | .ok (v, r1) =>
      match skipWs r1 with
      | ',' :: r2 => parseStep fuel (.elems (acc ++ [v])) (skipWs r2)
      | ']' :: r2 => .ok (.arr (acc ++ [v]), r2)
      | _ => .error .expectingCommaDelimiter

/-- Model of Python's json.loads on a character list: skip leading
whitespace, scan one value, skip trailing whitespace, and reject any
leftover input as extra data. -/
def pyJsonLoads (cs : List Char) : Except JErr Json :=
  match parseStep (4 * cs.length + 8) .value (skipWs cs) with
  | .error e => .error e
  | .ok (v, rest) =>
    if skipWs rest = [] then .ok v else .error .extraData

/-- Characters stripped by Python's str.strip() with no argument, for
the ASCII range the service ever sees (Python additionally strips some
non-ASCII unicode whitespace; the properties below quantify whitespace
through this predicate). -/
def pyIsSpace (c : Char) : Bool :=
  c = ' ' || c = '\t' || c = '\n' || c = '\r' ||
    c = Char.ofNat 11 || c = Char.ofNat 12

/-- Right strip, as the trailing half of Python's str.strip(). -/
def pyRStrip (cs : List Char) : List Char :=
  ((cs.reverse).dropWhile pyIsSpace).reverse

/-- Model of Python's str.strip(): drop whitespace from both ends. -/
def pyStrip (cs : List Char) : List Char :=
  pyRStrip (cs.dropWhile pyIsSpace)

/-- Drop the last n characters, as the Python slice js[:-n] does when
the string is known to be at least n long. -/
def dropRightN (cs : List Char) (n : Nat) : List Char :=
  cs.take (cs.length - n)

/-- Opening fence marker recognised by analyze_image, as an explicit
character list (Char.ofNat 96 is the backtick). -/
def fenceOpen : List Char :=
  [Char.ofNat 96, Char.ofNat 96, Char.ofNat 96, 'j', 's', 'o', 'n']

/-- Closing fence marker recognised by analyze_image. -/
def fenceClose : List Char := [Char.ofNat 96, Char.ofNat 96, Char.ofNat 96]

/-- Fence stripping pipeline of analyze_image (src/app.py lines
256-262): strip, drop a leading fence-open marker if present, drop a
trailing fence-close marker if present, strip again. -/
def stripFences (cs : List Char) : List Char :=
  let t0 := pyStrip cs
  let t1 := if fenceOpen.isPrefixOf t0 then t0.drop 7 else t0
  let t2 := if fenceClose.isSuffixOf t1 then dropRightN t1 3 else t1
  pyStrip t2

/-- Outcome of the code in the try block of analyze_image that runs
before json parsing: either the text of the model response, or the
message of the exception raised by model initialisation, image
decoding, or the generate call itself. -/
inductive InferOutcome where
  | ok (text : String)
  | err (msg : String)

/-- Fallback structure built by the except branch of analyze_image
(src/app.py lines 266-276), with str(e) as the error field. -/
def fallbackResult (errMsg ts : String) : Json :=
  .obj
    [("is_valid", .bool false),
     ("error", .str errMsg),
     ("analysis_metadata",
       .obj
         [("analysis_timestamp", .str ts),
          ("is_shop", .bool false),
          ("languages_detected", .arr [])])]

/-- Completion of analyze_image after fence stripping: a successful
parse is returned as is, a parse failure becomes the fallback carrying
the decoder message. -/
def processParsed (r : Except JErr Json) (ts : String) : Json :=
  match r with
  | .ok v => v
  | .error e => fallbackResult e.msg ts

/-- Model of analyze_image (src/app.py lines 235-276). The image bytes
are carried for signature fidelity; which outcome the remote call has
for them is supplied by the environment. The function is total: every
failure path yields the fallback structure. -/
def analyze_image (image_data : List Nat) (outcome : InferOutcome)
    (ts : String) : Json :=
  match outcome with
  | .err m => fallbackResult m ts
  | .ok text => processParsed (pyJsonLoads (stripFences text.data)) ts

/-- Error body used by the handlers for 400 and 500 responses. -/
def errBody (msg : String) : Json :=
  .obj [("error", .str msg), ("status", .str "error")]

/-- Multipart request to /analyze-shop: the image part, when present,
as its bytes. -/
structure AnalyzeRequest where
  image : Option (List Nat)

/-- POST body of the /analyze-shop handler (src/app.py lines 284-313):
missing image and empty image give 400, everything else returns 200
with the analyze_image result. -/
def analyze_shop (req : AnalyzeRequest) (outcome : InferOutcome)
    (ts : String) : Nat × Json :=
  match req.image with
  | none => (400, errBody "No image provided")
  | some image_data =>
    if image_data = [] then (400, errBody "Empty image data")
    else (200, analyze_image image_data outcome ts)

/-- One row of the shops table. -/
structure ShopRow where
  id : Nat
  location_data : Json
  shop_inference : Json
  image_data : List Nat
  created_at : String

/-- State of the shops table: the rows inserted so far and the next
value of the SERIAL id column. -/
structure DBState where
  nextId : Nat
  rows : List ShopRow

/-- Model of store_shop_data (src/app.py lines 138-164): one INSERT
RETURNING id, committed; the new row carries the submitted payloads
unchanged. -/
def store_shop_data (location_data shop_inference : Json)
    (image_data : List Nat) (ts : String) (db : DBState) : Nat × DBState :=
  (db.nextId,
    { nextId := db.nextId + 1,
      rows := db.rows ++
        [{ id := db.nextId, location_data, shop_inference, image_data,
           created_at := ts }] })

/-- Multipart request to /submit-shop: the image part and the
shop_data form field (request.form.get gives none when absent). -/
structure SubmitRequest where
  image : Option (List Nat)
  shop_data : Option String

/-- Environment of one /submit-shop call: whether the audit-file write
raises, whether the database insert raises, and the current time. -/
structure SubmitEnv where
  fsErr : Option String
  dbErr : Option String
  ts : String

/-- POST body of the /submit-shop handler (src/app.py lines 321-386).
Checks run in source order: image present, image non-empty, shop_data
truthy (absent and empty both fail), json.loads (a decode error gives
400), attribute access .get on the parsed value (a non-object raises
AttributeError, caught by the blanket handler as 500), the audit-file
write, then the insert; an exception from either side effect is caught
as 500 and nothing is inserted. -/
def submit_shop (req : SubmitRequest) (env : SubmitEnv) (db : DBState) :
    (Nat × Json) × DBState :=
  match req.image with
  | none => ((400, errBody "No image provided"), db)
  | some image_data =>
    if image_data = [] then ((400, errBody "Empty image data"), db)
    else
      match req.shop_data with
      | none => ((400, errBody "No shop data provided"), db)
      | some sd =>
        if sd = "" then ((400, errBody "No shop data provided"), db)
        else
          match pyJsonLoads sd.data with
          | .error _ => ((400, errBody "Invalid JSON data"), db)
          | .ok (.obj fields) =>
            let location_data := (objLookup fields "location").getD (.obj [])
            let shop_inference := (objLookup fields "inference").getD (.obj [])
            match env.fsErr with
            | some _ => ((500, errBody "Internal server error"), db)
            | none =>
              match env.dbErr with
              | some _ => ((500, errBody "Internal server error"), db)
              | none =>
                let res :=
                  store_shop_data location_data shop_inference image_data
                    env.ts db
                ((200,
                  .obj
                    [("status", .str "success"),
                     ("shop_id", .num (toString res.1)),
                     ("message", .str "Shop data successfully stored")]),
                  res.2)
          | .ok _ => ((500, errBody "Internal server error"), db)

/-! Helper lemmas about dropWhile and the Python strip functions. -/

theorem dropWhile_append_all (p : Char → Bool) (l₁ l₂ : List Char)
    (h : ∀ c ∈ l₁, p c = true) :
    (l₁ ++ l₂).dropWhile p = l₂.dropWhile p := by
  induction l₁ with
  | nil => rfl
  | cons a t ih =>
    rw [List.cons_append, List.dropWhile_cons, if_pos (h a (by simp))]
    exact ih fun c hc => h c (by simp [hc])

theorem dropWhile_head_false (p : Char → Bool) (l : List Char) {c : Char}
    {t : List Char} (h : l.dropWhile p = c :: t) : p c = false := by
  induction l with
  | nil => simp at h
  | cons a l ih =>
    rw [List.dropWhile_cons] at h
    cases hpa : p a with
    | true => rw [hpa, if_pos rfl] at h; exact ih h
    | false =>
      rw [hpa] at h
      simp only [Bool.false_eq_true, if_false, List.cons.injEq] at h
      rw [← h.1]
      exact hpa

theorem exists_append_dropWhile (p : Char → Bool) (l : List Char) :
    ∃ t, t ++ l.dropWhile p = l := by
  induction l with
  | nil => exact ⟨[], rfl⟩
  | cons a l ih =>
    cases hpa : p a with
    | true =>
      obtain ⟨t, ht⟩ := ih
      exact ⟨a :: t, by simp [List.dropWhile_cons, hpa, ht]⟩
    | false => exact ⟨[], by simp [List.dropWhile_cons, hpa]⟩

theorem dropWhile_idem (p : Char → Bool) (l : List Char) :
    (l.dropWhile p).dropWhile p = l.dropWhile p := by
  cases h : l.dropWhile p with
  | nil => rfl
  | cons c t => simp [List.dropWhile_cons, dropWhile_head_false p l h]

theorem pyRStrip_idem (x : List Char) : pyRStrip (pyRStrip x) = pyRStrip x := by
  unfold pyRStrip
  rw [List.reverse_reverse, dropWhile_idem]

theorem dropWhile_pyRStrip_dropWhile (l : List Char) :
    (pyRStrip (l.dropWhile pyIsSpace)).dropWhile pyIsSpace
      = pyRStrip (l.dropWhile pyIsSpace) := by
  cases hr : pyRStrip (l.dropWhile pyIsSpace) with
  | nil => rfl
  | cons c t =>
    obtain ⟨t0, ht0⟩ :=
      exists_append_dropWhile pyIsSpace (l.dropWhile pyIsSpace).reverse
    have hrrev : (pyRStrip (l.dropWhile pyIsSpace)).reverse
        = (l.dropWhile pyIsSpace).reverse.dropWhile pyIsSpace := by
      unfold pyRStrip; rw [List.reverse_reverse]
    rw [← hrrev] at ht0
    have hm2 := congrArg List.reverse ht0
    rw [List.reverse_append, List.reverse_reverse, List.reverse_reverse,
      hr, List.cons_append] at hm2
    have hc : pyIsSpace c = false := dropWhile_head_false pyIsSpace l hm2.symm
    simp [List.dropWhile_cons, hc]

theorem pyStrip_idem (l : List Char) : pyStrip (pyStrip l) = pyStrip l := by
  unfold pyStrip
  rw [dropWhile_pyRStrip_dropWhile, pyRStrip_idem]

theorem isPrefixOf_append_self (xs ys : List Char) :
    xs.isPrefixOf (xs ++ ys) = true := by
  induction xs with
  | nil => simp
  | cons a as ih => simp [List.cons_append, List.isPrefixOf_cons₂, ih]

theorem pyStrip_fenced (ws1 ws2 interior : List Char)
    (h1 : ∀ c ∈ ws1, pyIsSpace c = true)
    (h2 : ∀ c ∈ ws2, pyIsSpace c = true) :
    pyStrip (ws1 ++ (fenceOpen ++ interior ++ fenceClose) ++ ws2)
      = fenceOpen ++ interior ++ fenceClose := by
  have hA : ∀ X : List Char,
      (fenceOpen ++ X).dropWhile pyIsSpace = fenceOpen ++ X := fun X => rfl
  have hB : ∀ Y : List Char,
      (fenceClose.reverse ++ Y).dropWhile pyIsSpace = fenceClose.reverse ++ Y :=
    fun Y => rfl
  have hws2r : ∀ c ∈ ws2.reverse, pyIsSpace c = true :=
    fun c hc => h2 c (List.mem_reverse.mp hc)
  unfold pyStrip pyRStrip
  simp only [List.append_assoc]
  rw [dropWhile_append_all _ _ _ h1, hA]
  simp only [List.reverse_append, List.append_assoc]
  rw [dropWhile_append_all _ _ _ hws2r, hB]
  simp [List.reverse_append, List.reverse_reverse, List.append_assoc]

theorem stripFences_fenced (ws1 ws2 interior : List Char)
    (h1 : ∀ c ∈ ws1, pyIsSpace c = true)
    (h2 : ∀ c ∈ ws2, pyIsSpace c = true) :
    stripFences (ws1 ++ (fenceOpen ++ interior ++ fenceClose) ++ ws2)
      = pyStrip interior := by
  have hsuf : fenceClose.isSuffixOf (interior ++ fenceClose) = true := by
    unfold List.isSuffixOf
    rw [List.reverse_append]
    exact isPrefixOf_append_self _ _
  have htake : dropRightN (interior ++ fenceClose) 3 = interior := by
    unfold dropRightN
    have hlen : (interior ++ fenceClose).length - 3 = interior.length := by
      have h3 : fenceClose.length = 3 := rfl
      rw [List.length_append, h3, Nat.add_sub_cancel]
    rw [hlen]
    exact List.take_left interior fenceClose
  have hlen7 : (7 : Nat) = fenceOpen.length := rfl
  simp only [stripFences]
  rw [pyStrip_fenced ws1 ws2 interior h1 h2, List.append_assoc,
    isPrefixOf_append_self, if_pos rfl, hlen7, List.drop_left, hsuf,
    if_pos rfl, htake]

theorem stripFences_no_marks (cs : List Char)
    (hp : fenceOpen.isPrefixOf (pyStrip cs) = false)
    (hs : fenceClose.isSuffixOf (pyStrip cs) = false) :
    stripFences cs = pyStrip cs := by
  unfold stripFences
  simp only [hp, hs, Bool.false_eq_true, if_false]
  exact pyStrip_idem cs

/-! Helper lemmas characterising the branches of the two handlers. -/

theorem analyze_shop_no_image (req : AnalyzeRequest) (out : InferOutcome)
    (ts : String) (h : req.image = none) :
    analyze_shop req out ts = (400, errBody "No image provided") := by
  unfold analyze_shop
  rw [h]

theorem analyze_shop_empty_image (req : AnalyzeRequest) (out : InferOutcome)
    (ts : String) (h : req.image = some []) :
    analyze_shop req out ts = (400, errBody "Empty image data") := by
  unfold analyze_shop
  rw [h]
  rfl

theorem analyze_shop_ok (req : AnalyzeRequest) (out : InferOutcome)
    (ts : String) (img : List Nat) (himg : req.image = some img)
    (hne : img ≠ []) :
    analyze_shop req out ts = (200, analyze_image img out ts) := by
  unfold analyze_shop
  rw [himg]
  exact if_neg hne

theorem submit_shop_no_image (sreq : SubmitRequest) (env : SubmitEnv)
    (db : DBState) (h : sreq.image = none) :
    submit_shop sreq env db = ((400, errBody "No image provided"), db) := by
  unfold submit_shop
  rw [h]

theorem submit_shop_empty_image (sreq : SubmitRequest) (env : SubmitEnv)
    (db : DBState) (h : sreq.image = some []) :
    submit_shop sreq env db = ((400, errBody "Empty image data"), db) := by
  unfold submit_shop
  rw [h]
  rfl

theorem submit_shop_no_data (sreq : SubmitRequest) (env : SubmitEnv)
    (db : DBState) (img : List Nat) (himg : sreq.image = some img)
    (hne : img ≠ []) (h : sreq.shop_data = none) :
    submit_shop sreq env db = ((400, errBody "No shop data provided"), db) := by
  unfold submit_shop
  rw [himg]
  dsimp only
  rw [if_neg hne, h]

theorem submit_shop_empty_data (sreq : SubmitRequest) (env : SubmitEnv)
    (db : DBState) (img : List Nat) (himg : sreq.image = some img)
    (hne : img ≠ []) (h : sreq.shop_data = some "") :
    submit_shop sreq env db = ((400, errBody "No shop data provided"), db) := by
  unfold submit_shop
  rw [himg]
  dsimp only
  rw [if_neg hne, h]
  rfl

theorem submit_shop_bad_json (sreq : SubmitRequest) (env : SubmitEnv)
    (db : DBState) (img : List Nat) (sd : String) (e : JErr)
    (himg : sreq.image = some img) (hne : img ≠ [])
    (hsd : sreq.shop_data = some sd) (hne2 : sd ≠ "")
    (he : pyJsonLoads sd.data = .error e) :
    submit_shop sreq env db = ((400, errBody "Invalid JSON data"), db) := by
  unfold submit_shop
  rw [himg]
  dsimp only
  rw [if_neg hne, hsd]
  dsimp only
  rw [if_neg hne2, he]

theorem submit_shop_success (sreq : SubmitRequest) (env : SubmitEnv)
    (db : DBState) (img : List Nat) (sd : String)
    (fields : List (String × Json))
    (himg : sreq.image = some img) (hne : img ≠ [])
    (hsd : sreq.shop_data = some sd) (hne2 : sd ≠ "")
    (hok : pyJsonLoads sd.data = .ok (.obj fields))
    (hfs : env.fsErr = none) (hdb : env.dbErr = none) :
    submit_shop sreq env db =
      ((200,
        .obj
          [("status", .str "success"),
           ("shop_id", .num (toString db.nextId)),
           ("message", .str "Shop data successfully stored")]),
        { nextId := db.nextId + 1,
          rows := db.rows ++
            [{ id := db.nextId,
               location_data := (objLookup fields "location").getD (.obj []),
               shop_inference := (objLookup fields "inference").getD (.obj []),
               image_data := img, created_at := env.ts }] }) := by
  unfold submit_shop
  rw [himg]
  dsimp only
  rw [if_neg hne, hsd]
  dsimp only
  rw [if_neg hne2, hok]
  dsimp only
  rw [hfs]
  dsimp only
  rw [hdb]
  rfl

/-! Claim theorems. -/

/-- Failure condition of analyze_image: either the code before parsing
raised (inference call, image decode), or the returned text fails json
parsing after fence stripping. -/
def analyzeFailed (out : InferOutcome) : Prop :=
  (∃ m, out = .err m) ∨
    (∃ t e, out = .ok t ∧ pyJsonLoads (stripFences t.data) = .error e)

/-- Claim C1, amended. For every inference failure and every response
text that is not valid JSON after trimming and fence stripping,
analyze_image (a total function, so it never raises) returns a
structure with is_valid false, an error string equal to the underlying
exception message, and an empty languages_detected list. The error
string is non-empty in every JSON-parse-failure case, but equals the
raised exception message verbatim in the inference/decode failure case
and hence can be empty when that message is empty. -/
theorem claim1_fallback_shape (img : List Nat) (out : InferOutcome)
    (ts : String) (h : analyzeFailed out) :
    (analyze_image img out ts).lookup "is_valid" = some (.bool false) ∧
    (∃ s, (analyze_image img out ts).lookup "error" = some (.str s)) ∧
    (∀ t e, out = .ok t → pyJsonLoads (stripFences t.data) = .error e →
      (analyze_image img out ts).lookup "error" = some (.str e.msg) ∧
        e.msg ≠ "") ∧
    (∃ md, (analyze_image img out ts).lookup "analysis_metadata" = some md ∧
      md.lookup "languages_detected" = some (.arr [])) := by
  rcases h with ⟨m, rfl⟩ | ⟨t, e, rfl, hpe⟩
  · exact ⟨rfl, ⟨m, rfl⟩,
      fun t' e' ht' => InferOutcome.noConfusion ht', ⟨_, rfl, rfl⟩⟩
  · have hai : analyze_image img (.ok t) ts = fallbackResult e.msg ts := by
      show processParsed (pyJsonLoads (stripFences t.data)) ts = _
      rw [hpe]
      rfl
    rw [hai]
    refine ⟨rfl, ⟨e.msg, rfl⟩, ?_, ⟨_, rfl, rfl⟩⟩
    intro t' e' ht' hp'
    injection ht' with h1
    subst h1
    rw [hpe] at hp'
    injection hp' with h2
    subst h2
    exact ⟨rfl, by cases e <;> decide⟩

/-- Claim C1, counterexample to the claim as stated: when the
inference invocation raises an exception whose message is the empty
string, the fallback's error field is the empty string, so the claimed
"non-empty error string" fails. -/
theorem claim1_counterexample :
    (analyze_image [] (InferOutcome.err "") "2024").lookup "error"
      = some (.str "") ∧
    ¬ ∃ s, (analyze_image [] (InferOutcome.err "") "2024").lookup "error"
      = some (.str s) ∧ s ≠ "" := by
  refine ⟨rfl, ?_⟩
  rintro ⟨s, hs, hne⟩
  have h0 : (analyze_image [] (InferOutcome.err "") "2024").lookup "error"
      = some (.str "") := rfl
  rw [h0] at hs
  injection hs with h1
  injection h1 with h2
  exact hne h2.symm

/-- Witness for claim C1 at a concrete non-JSON response text. -/
theorem claim1_fallback_shape_witness :
    analyzeFailed (InferOutcome.ok "oops") ∧
    ((analyze_image [] (InferOutcome.ok "oops") "ts").lookup "is_valid"
        = some (.bool false) ∧
      (∃ s, (analyze_image [] (InferOutcome.ok "oops") "ts").lookup "error"
        = some (.str s)) ∧
      (∀ t e, InferOutcome.ok "oops" = InferOutcome.ok t →
        pyJsonLoads (stripFences t.data) = .error e →
        (analyze_image [] (InferOutcome.ok "oops") "ts").lookup "error"
          = some (.str e.msg) ∧ e.msg ≠ "") ∧
      (∃ md, (analyze_image [] (InferOutcome.ok "oops") "ts").lookup
          "analysis_metadata" = some md ∧
        md.lookup "languages_detected" = some (.arr []))) :=
  have hyp : analyzeFailed (InferOutcome.ok "oops") :=
    Or.inr ⟨"oops", JErr.expectingValue, rfl, by rfl⟩
  ⟨hyp, claim1_fallback_shape [] (InferOutcome.ok "oops") "ts" hyp⟩

/-- Claim C2. For every text made of optional whitespace, the opening
marker, an interior, the closing marker and optional whitespace, the
Normalizer strips both markers and whitespace before parsing, and its
result equals the result of parsing the trimmed interior directly. -/
theorem claim2_fence_stripping (img : List Nat) (ts : String)
    (ws1 ws2 interior : List Char)
    (h1 : ∀ c ∈ ws1, pyIsSpace c = true)
    (h2 : ∀ c ∈ ws2, pyIsSpace c = true) :
    stripFences (ws1 ++ (fenceOpen ++ interior ++ fenceClose) ++ ws2)
      = pyStrip interior ∧
    pyJsonLoads
        (stripFences (ws1 ++ (fenceOpen ++ interior ++ fenceClose) ++ ws2))
      = pyJsonLoads (pyStrip interior) ∧
    analyze_image img
        (.ok (String.mk (ws1 ++ (fenceOpen ++ interior ++ fenceClose) ++ ws2)))
        ts
      = processParsed (pyJsonLoads (pyStrip interior)) ts := by
  have hs := stripFences_fenced ws1 ws2 interior h1 h2
  refine ⟨hs, by rw [hs], ?_⟩
  show processParsed
      (pyJsonLoads (stripFences
        (String.mk (ws1 ++ (fenceOpen ++ interior ++ fenceClose) ++ ws2)).data))
      ts = _
  rw [show (String.mk
        (ws1 ++ (fenceOpen ++ interior ++ fenceClose) ++ ws2)).data
      = ws1 ++ (fenceOpen ++ interior ++ fenceClose) ++ ws2 from rfl, hs]

/-- Witness for claim C2 at a concrete fenced object text. -/
theorem claim2_fence_stripping_witness :
    (∀ c ∈ [' '], pyIsSpace c = true) ∧
    (∀ c ∈ ['\n'], pyIsSpace c = true) ∧
    (stripFences
        ([' '] ++ (fenceOpen ++ "\x7b\x7d".data ++ fenceClose) ++ ['\n'])
      = pyStrip "\x7b\x7d".data ∧
    pyJsonLoads
        (stripFences
          ([' '] ++ (fenceOpen ++ "\x7b\x7d".data ++ fenceClose) ++ ['\n']))
      = pyJsonLoads (pyStrip "\x7b\x7d".data) ∧
    analyze_image []
        (.ok (String.mk
          ([' '] ++ (fenceOpen ++ "\x7b\x7d".data ++ fenceClose) ++ ['\n'])))
        "ts"
      = processParsed (pyJsonLoads (pyStrip "\x7b\x7d".data)) "ts") :=
  have hw1 : ∀ c ∈ [' '], pyIsSpace c = true := by
    intro c hc
    simp only [List.mem_singleton] at hc
    subst hc
    rfl
  have hw2 : ∀ c ∈ ['\n'], pyIsSpace c = true := by
    intro c hc
    simp only [List.mem_singleton] at hc
    subst hc
    rfl
  ⟨hw1, hw2,
    claim2_fence_stripping [] "ts" [' '] ['\n'] "\x7b\x7d".data hw1 hw2⟩

/-- Claim C3. For every text without fence markers whose trimmed form
parses as valid JSON, the Normalizer returns exactly the parsed
structure, unchanged. -/
theorem claim3_plain_passthrough (img : List Nat) (ts : String)
    (text : String) (v : Json)
    (hp : fenceOpen.isPrefixOf (pyStrip text.data) = false)
    (hsfx : fenceClose.isSuffixOf (pyStrip text.data) = false)
    (hv : pyJsonLoads (pyStrip text.data) = .ok v) :
    analyze_image img (.ok text) ts = v := by
  show processParsed (pyJsonLoads (stripFences text.data)) ts = v
  rw [stripFences_no_marks text.data hp hsfx, hv]
  rfl

/-- Witness for claim C3 at a concrete plain JSON text. -/
theorem claim3_plain_passthrough_witness :
    fenceOpen.isPrefixOf (pyStrip " \x7b\"a\": 1\x7d ".data) = false ∧
    fenceClose.isSuffixOf (pyStrip " \x7b\"a\": 1\x7d ".data) = false ∧
    pyJsonLoads (pyStrip " \x7b\"a\": 1\x7d ".data)
      = .ok (.obj [("a", .num "1")]) ∧
    analyze_image [] (.ok " \x7b\"a\": 1\x7d ") "ts"
      = .obj [("a", .num "1")] :=
  ⟨rfl, rfl, rfl,
    claim3_plain_passthrough [] "ts" " \x7b\"a\": 1\x7d "
      (.obj [("a", .num "1")]) rfl rfl rfl⟩

/-- Claim C4. For every request to POST /analyze-shop with a present,
non-empty image, the handler returns status 200 with the Normalizer's
result as the body, whatever the outcome of the remote inference, so a
remote failure is never surfaced as an HTTP error status. -/
theorem claim4_analyze_never_http_error (req : AnalyzeRequest)
    (out : InferOutcome) (ts : String) (img : List Nat)
    (himg : req.image = some img) (hne : img ≠ []) :
    analyze_shop req out ts = (200, analyze_image img out ts) :=
  analyze_shop_ok req out ts img himg hne

/-- Witness for claim C4 at a concrete request whose inference call
fails. -/
theorem claim4_analyze_never_http_error_witness :
    (AnalyzeRequest.mk (some [0])).image = some [0] ∧
    ([0] : List Nat) ≠ [] ∧
    analyze_shop ⟨some [0]⟩ (.err "boom") "ts"
      = (200, analyze_image [0] (.err "boom") "ts") :=
  ⟨rfl, by decide,
    claim4_analyze_never_http_error ⟨some [0]⟩ (.err "boom") "ts" [0] rfl
      (by decide)⟩

/-- Claim C5. A missing or empty image on either POST endpoint, and a
missing or unparseable shop_data field on /submit-shop, each produce
status 400 with a body whose status field is the string error. -/
theorem claim5_client_errors_400 (out : InferOutcome) (ts : String)
    (areq : AnalyzeRequest) (sreq : SubmitRequest) (env : SubmitEnv)
    (db : DBState) :
    ((areq.image = none ∨ areq.image = some []) →
      (analyze_shop areq out ts).1 = 400 ∧
      (analyze_shop areq out ts).2.lookup "status" = some (.str "error")) ∧
    ((sreq.image = none ∨ sreq.image = some [] ∨ sreq.shop_data = none ∨
        (∃ sd e, sreq.shop_data = some sd ∧ pyJsonLoads sd.data = .error e)) →
      (submit_shop sreq env db).1.1 = 400 ∧
      (submit_shop sreq env db).1.2.lookup "status" = some (.str "error")) := by
  constructor
  · rintro (h | h)
    · rw [analyze_shop_no_image areq out ts h]; exact ⟨rfl, rfl⟩
    · rw [analyze_shop_empty_image areq out ts h]; exact ⟨rfl, rfl⟩
  · intro h
    cases hio : sreq.image with
    | none => rw [submit_shop_no_image sreq env db hio]; exact ⟨rfl, rfl⟩
    | some img =>
      by_cases hne : img = []
      · subst hne
        rw [submit_shop_empty_image sreq env db hio]
        exact ⟨rfl, rfl⟩
      · rcases h with h | h | h | ⟨sd, e, hsd, he⟩
        · rw [h] at hio; exact Option.noConfusion hio
        · rw [h] at hio
          injection hio with h1
          exact absurd h1.symm hne
        · rw [submit_shop_no_data sreq env db img hio hne h]
          exact ⟨rfl, rfl⟩
        · by_cases hsd0 : sd = ""
          · subst hsd0
            rw [submit_shop_empty_data sreq env db img hio hne hsd]
            exact ⟨rfl, rfl⟩
          · rw [submit_shop_bad_json sreq env db img sd e hio hne hsd hsd0 he]
            exact ⟨rfl, rfl⟩

/-- Witness for claim C5: a missing image on /analyze-shop and an
unparseable shop_data on /submit-shop. -/
theorem claim5_client_errors_400_witness :
    ((analyze_shop ⟨none⟩ (.err "x") "ts").1 = 400 ∧
      (analyze_shop ⟨none⟩ (.err "x") "ts").2.lookup "status"
        = some (.str "error")) ∧
    ((submit_shop ⟨some [0], some "not json"⟩ ⟨none, none, "ts"⟩
        ⟨1, []⟩).1.1 = 400 ∧
      (submit_shop ⟨some [0], some "not json"⟩ ⟨none, none, "ts"⟩
        ⟨1, []⟩).1.2.lookup "status" = some (.str "error")) :=
  have h := claim5_client_errors_400 (.err "x") "ts" ⟨none⟩
    ⟨some [0], some "not json"⟩ ⟨none, none, "ts"⟩ ⟨1, []⟩
  ⟨h.1 (Or.inl rfl),
    h.2 (Or.inr (Or.inr (Or.inr ⟨"not json", .expectingValue, rfl, by rfl⟩)))⟩

/-- Claim C6. A /submit-shop request with a non-empty image and a
shop_data object carrying location and inference sub-objects returns
200 with status success and the next numeric shop id, and the inserted
row stores the submitted location payload unchanged (when neither the
audit write nor the insert raises). -/
theorem claim6_submit_success_persists (sreq : SubmitRequest)
    (env : SubmitEnv) (db : DBState) (img : List Nat) (sd : String)
    (fields : List (String × Json)) (loc inf : Json)
    (himg : sreq.image = some img) (hne : img ≠ [])
    (hsd : sreq.shop_data = some sd)
    (hok : pyJsonLoads sd.data = .ok (.obj fields))
    (hloc : objLookup fields "location" = some loc)
    (hinf : objLookup fields "inference" = some inf)
    (hfs : env.fsErr = none) (hdb : env.dbErr = none) :
    (submit_shop sreq env db).1.1 = 200 ∧
    (submit_shop sreq env db).1.2.lookup "status" = some (.str "success") ∧
    (submit_shop sreq env db).1.2.lookup "shop_id"
      = some (.num (toString db.nextId)) ∧
    (submit_shop sreq env db).2.rows = db.rows ++
      [{ id := db.nextId, location_data := loc, shop_inference := inf,
         image_data := img, created_at := env.ts }] := by
  have hne2 : sd ≠ "" := by
    intro h0
    rw [h0, show pyJsonLoads ("" : String).data = .error .expectingValue
      from rfl] at hok
    exact Except.noConfusion hok
  rw [submit_shop_success sreq env db img sd fields himg hne hsd hne2 hok
    hfs hdb]
  refine ⟨rfl, rfl, rfl, ?_⟩
  rw [hloc, hinf]
  rfl

/-- Witness for claim C6 at the example submission of the spec. -/
theorem claim6_submit_success_persists_witness :
    (submit_shop
        ⟨some [7],
          some "\x7b\"location\": \x7b\"city\": \"X\"\x7d, \"inference\": \x7b\"type\": \"bakery\"\x7d\x7d"⟩
        ⟨none, none, "ts"⟩ ⟨1, []⟩).1.1 = 200 ∧
    (submit_shop
        ⟨some [7],
          some "\x7b\"location\": \x7b\"city\": \"X\"\x7d, \"inference\": \x7b\"type\": \"bakery\"\x7d\x7d"⟩
        ⟨none, none, "ts"⟩ ⟨1, []⟩).2.rows
      = (⟨1, []⟩ : DBState).rows ++
        [{ id := 1, location_data := .obj [("city", .str "X")],
           shop_inference := .obj [("type", .str "bakery")],
           image_data := [7], created_at := "ts" }] :=
  have h := claim6_submit_success_persists
    ⟨some [7],
      some "\x7b\"location\": \x7b\"city\": \"X\"\x7d, \"inference\": \x7b\"type\": \"bakery\"\x7d\x7d"⟩
    ⟨none, none, "ts"⟩ ⟨1, []⟩ [7]
    "\x7b\"location\": \x7b\"city\": \"X\"\x7d, \"inference\": \x7b\"type\": \"bakery\"\x7d\x7d"
    [("location", .obj [("city", .str "X")]),
     ("inference", .obj [("type", .str "bakery")])]
    (.obj [("city", .str "X")]) (.obj [("type", .str "bakery")])
    rfl (by decide) rfl (by rfl) rfl rfl rfl rfl
  ⟨h.1, h.2.2.2⟩

/-- Claim C7. The shops table only grows: every call of the
/submit-shop handler leaves the stored rows unchanged or appends
exactly one new row, and every call that answers 200 appends exactly
one row. Existing rows are never updated or deleted, and no other
operation of the model touches the table (analyze_shop does not take
the database state at all). -/
theorem claim7_rows_append_only (sreq : SubmitRequest) (env : SubmitEnv)
    (db : DBState) :
    ((submit_shop sreq env db).2.rows = db.rows ∨
      ∃ row, (submit_shop sreq env db).2.rows = db.rows ++ [row]) ∧
    ((submit_shop sreq env db).1.1 = 200 →
      ∃ row, (submit_shop sreq env db).2.rows = db.rows ++ [row]) := by
  constructor
  · unfold submit_shop
    repeat' split
    all_goals try exact Or.inl rfl
    all_goals exact Or.inr ⟨_, rfl⟩
  · unfold submit_shop
    repeat' split
    all_goals intro h200
    all_goals try simp at h200
    all_goals exact ⟨_, rfl⟩

/-- Witness for claim C7: a successful submission appends one row. -/
theorem claim7_rows_append_only_witness :
    ∃ row, (submit_shop ⟨some [7], some "\x7b\x7d"⟩ ⟨none, none, "ts"⟩
        ⟨1, []⟩).2.rows
      = (⟨1, []⟩ : DBState).rows ++ [row] :=
  (claim7_rows_append_only ⟨some [7], some "\x7b\x7d"⟩ ⟨none, none, "ts"⟩
    ⟨1, []⟩).2 (by rfl)

/-- Claim C8. A present but empty shop_data form field is treated as
missing: the handler answers 400 with the message of the missing-data
branch rather than attempting to parse the empty string as JSON. -/
theorem claim8_empty_shop_data_field (sreq : SubmitRequest)
    (env : SubmitEnv) (db : DBState) (img : List Nat)
    (himg : sreq.image = some img) (hne : img ≠ [])
    (h : sreq.shop_data = some "") :
    submit_shop sreq env db = ((400, errBody "No shop data provided"), db) :=
  submit_shop_empty_data sreq env db img himg hne h

/-- Witness for claim C8 at a concrete request. -/
theorem claim8_empty_shop_data_field_witness :
    (SubmitRequest.mk (some [1]) (some "")).shop_data = some "" ∧
    submit_shop ⟨some [1], some ""⟩ ⟨none, none, "ts"⟩ ⟨1, []⟩
      = ((400, errBody "No shop data provided"), ⟨1, []⟩) :=
  ⟨rfl,
    claim8_empty_shop_data_field ⟨some [1], some ""⟩ ⟨none, none, "ts"⟩
      ⟨1, []⟩ [1] rfl (by decide) rfl⟩

/-- Claim C9. When shop_data parses to an object, a missing location
or inference key defaults to the empty object in the inserted row, and
the call still answers 200 (when neither side effect raises); absence
of these keys is never reported as an error. -/
theorem claim9_missing_keys_default (sreq : SubmitRequest)
    (env : SubmitEnv) (db : DBState) (img : List Nat) (sd : String)
    (fields : List (String × Json))
    (himg : sreq.image = some img) (hne : img ≠ [])
    (hsd : sreq.shop_data = some sd)
    (hok : pyJsonLoads sd.data = .ok (.obj fields))
    (hfs : env.fsErr = none) (hdb : env.dbErr = none) :
    (submit_shop sreq env db).1.1 = 200 ∧
    (objLookup fields "location" = none →
      ∃ row, (submit_shop sreq env db).2.rows = db.rows ++ [row] ∧
        row.location_data = .obj []) ∧
    (objLookup fields "inference" = none →
      ∃ row, (submit_shop sreq env db).2.rows = db.rows ++ [row] ∧
        row.shop_inference = .obj []) := by
  have hne2 : sd ≠ "" := by
    intro h0
    rw [h0, show pyJsonLoads ("" : String).data = .error .expectingValue
      from rfl] at hok
    exact Except.noConfusion hok
  rw [submit_shop_success sreq env db img sd fields himg hne hsd hne2 hok
    hfs hdb]
  refine ⟨rfl, ?_, ?_⟩
  · intro h0
    exact ⟨_, rfl, by rw [h0]; rfl⟩
  · intro h0
    exact ⟨_, rfl, by rw [h0]; rfl⟩

/-- Witness for claim C9 at a submission whose shop_data is the empty
object. -/
theorem claim9_missing_keys_default_witness :
    (submit_shop ⟨some [7], some "\x7b\x7d"⟩ ⟨none, none, "ts"⟩
        ⟨1, []⟩).1.1 = 200 ∧
    (∃ row, (submit_shop ⟨some [7], some "\x7b\x7d"⟩ ⟨none, none, "ts"⟩
          ⟨1, []⟩).2.rows
        = (⟨1, []⟩ : DBState).rows ++ [row] ∧ row.location_data = .obj []) ∧
    (∃ row, (submit_shop ⟨some [7], some "\x7b\x7d"⟩ ⟨none, none, "ts"⟩
          ⟨1, []⟩).2.rows
        = (⟨1, []⟩ : DBState).rows ++ [row] ∧
        row.shop_inference = .obj []) :=
  have h := claim9_missing_keys_default ⟨some [7], some "\x7b\x7d"⟩
    ⟨none, none, "ts"⟩ ⟨1, []⟩ [7] "\x7b\x7d" [] rfl (by decide) rfl
    (by rfl) rfl rfl
  ⟨h.1, h.2.1 rfl, h.2.2 rfl⟩

/-- Claim C10. Whenever analyze_image returns the fallback, its error
field is exactly the message of the underlying exception: the decoder
message on a parse failure, and the raised message on an inference or
decode failure, echoed verbatim. -/
theorem claim10_error_verbatim (img : List Nat) (out : InferOutcome)
    (ts : String) :
    (∀ m, out = .err m →
      (analyze_image img out ts).lookup "error" = some (.str m)) ∧
    (∀ t e, out = .ok t → pyJsonLoads (stripFences t.data) = .error e →
      (analyze_image img out ts).lookup "error" = some (.str e.msg)) := by
  constructor
  · rintro m rfl
    rfl
  · rintro t e rfl hpe
    show (processParsed (pyJsonLoads (stripFences t.data)) ts).lookup "error"
      = _
    rw [hpe]
    rfl

/-- Witness for claim C10 at a concrete failing inference call. -/
theorem claim10_error_verbatim_witness :
    (analyze_image [] (InferOutcome.err "boom") "ts").lookup "error"
      = some (.str "boom") :=
  (claim10_error_verbatim [] (.err "boom") "ts").1 "boom" rfl

end MerchantOnboard
